import Mathlib

/-!
Shallow embedding of the Account-Manager credential vault
(`utils/cryptography.py`, `database/database.py`, `gui/login_window.py`).

Modelling conventions:
* Python byte strings and keys are `List Nat` (one entry per byte).
* SHA-256 (`hashlib.sha256(...).hexdigest()`) is an external primitive; the
  development is parameterised by `sha : List Nat → String`, the hex digest.
* AES-GCM (`cryptography.hazmat.primitives.ciphers.aead.AESGCM`) is an
  external primitive, modelled symbolically: the byte string
  `nonce || AESGCM(key).encrypt(nonce, pt, None)` is the `Value.blob`
  constructor recording key, nonce and plaintext, and AEAD decryption
  recovers the plaintext exactly when the key matches, failing tag
  verification otherwise.  Byte strings that are not AEAD outputs are
  `Value.raw`.  Randomness (`secrets.token_bytes`) is modelled by passing
  the drawn bytes as explicit arguments.
* Python `None` is `Value.none`; a value column holds a `Value`.
-/

/-- One byte of Python's ASCII whitespace set stripped by `strip()`:
space, tab, newline, vertical tab, form feed, carriage return. -/
def isWhitespaceByte (b : Nat) : Bool :=
  b = 32 || b = 9 || b = 10 || b = 11 || b = 12 || b = 13

/-- Whitespace characters stripped by Python `str.strip()` (restricted to
the ASCII range; the repository only ever strips GUI text). -/
def isPyWhitespaceChar (c : Char) : Bool :=
  c = ' ' || c = '\t' || c = '\n' || c = '\x0b' || c = '\x0c' || c = '\r'

/-- Python `not strng.strip()` for a Python `str`: true iff every character is
whitespace (in particular for the empty string). -/
def pyStripIsEmpty (s : String) : Bool :=
  s.toList.all isPyWhitespaceChar

/-- A Python value as stored in a database column or passed to the cipher
functions: `str`, AEAD output bytes (`nonce || ciphertext_with_tag`,
symbolic), other raw bytes, or `None`. -/
inductive Value where
  | str (s : String)
  | blob (key : List Nat) (nonce : List Nat) (pt : String)
  | raw (b : List Nat)
  | none
deriving DecidableEq, Repr

/-- Errors raised by the embedded operations (Python exception classes). -/
inductive PyErr where
  | valueErrorNotFound (uid : Nat)
  | valueErrorInvalidColumn (col : String)
  | fileNotFoundError (path : String)
  | typeError
  | authenticationError
deriving DecidableEq, Repr

/-- Function `is_empty_or_whitespace(strng)` from `utils/cryptography.py`:
`strng is None or not strng.strip()`.  For a real AEAD blob the bytes
include a 16-byte random tag; the symbolic model treats such bytes as
never all-whitespace. -/
def is_empty_or_whitespace (v : Value) : Bool :=
  match v with
  | .none => true
  | .str s => pyStripIsEmpty s
  | .blob _ _ _ => false
  | .raw b => b.all isWhitespaceByte

/-- Function `hash_str(key)` from `utils/cryptography.py` on a `bytes` input:
the SHA-256 hex digest.  `sha` is the external SHA-256 primitive. -/
def hash_str (sha : List Nat → String) (key : List Nat) : String :=
  sha key

/-- UTF-8 encoding of a Python `str` (`.encode()`), as a byte list. -/
def utf8Bytes (s : String) : List Nat :=
  s.toUTF8.data.toList.map (fun b => b.toNat)

/-- Function `encrypt(key, plaintext)` from `utils/cryptography.py`.  The fresh
12-byte nonce drawn by `secrets.token_bytes(12)` is passed explicitly.
Empty/whitespace plaintext is returned unchanged (still a `str`);
otherwise the result is the byte string `nonce + aesgcm.encrypt(...)`,
symbolically a `Value.blob`. -/
def encrypt (key : List Nat) (nonce : List Nat) (plaintext : String) : Value :=
  if is_empty_or_whitespace (.str plaintext) then .str plaintext
  else .blob key nonce plaintext

/-- Function `decrypt(key, ciphertext)` from `utils/cryptography.py`.  Empty or
whitespace input is returned unchanged; otherwise the first 12 bytes are
the nonce and the rest is AEAD ciphertext+tag: tag verification succeeds
exactly when the key matches the one used at encryption, and raises
`InvalidTag` (here `PyErr.authenticationError`) otherwise.  Raw bytes
that are not an AEAD output fail tag verification; a non-`bytes` input
makes the AESGCM library raise `TypeError`. -/
def decrypt (key : List Nat) (ciphertext : Value) : Except PyErr Value :=
  if is_empty_or_whitespace ciphertext then .ok ciphertext
  else
    match ciphertext with
    | .blob k _ pt => if k = key then .ok (.str pt) else .error .authenticationError
    | .raw _ => .error .authenticationError
    | .str _ => .error .typeError
    | .none => .error .typeError

/-- Shared helper: AEAD round trip for non-empty plaintext. -/
theorem decrypt_encrypt_eq (key nonce : List Nat) (p : String)
    (hp : pyStripIsEmpty p = false) :
    decrypt key (encrypt key nonce p) = .ok (.str p) := by
  simp [encrypt, decrypt, is_empty_or_whitespace, hp]

/-- C2: for every 32-byte key `k` and every non-empty, non-whitespace-only
plaintext `p`, `decrypt(k, encrypt(k, p)) == p`. -/
theorem C2_decrypt_encrypt_roundtrip (k nonce : List Nat) (p : String)
    (hk : k.length = 32) (hp : pyStripIsEmpty p = false) :
    decrypt k (encrypt k nonce p) = .ok (.str p) :=
  decrypt_encrypt_eq k nonce p hp

/-- Witness for C2 at `k = 32 zero bytes`, `p = "pass123"`. -/
theorem C2_witness :
    decrypt (List.replicate 32 0) (encrypt (List.replicate 32 0) [1, 2] "pass123")
      = .ok (.str "pass123") :=
  C2_decrypt_encrypt_roundtrip (List.replicate 32 0) [1, 2] "pass123"
    (by decide) (by decide)

/-- C7: for every 32-byte key `k` and every string `p` that is empty or
whitespace-only, `encrypt(k, p) == p` and `decrypt(k, p) == p`: the value
passes through unchanged and is never run through AEAD. -/
theorem C7_passthrough_fixed_point (k nonce : List Nat) (p : String)
    (hk : k.length = 32) (hp : pyStripIsEmpty p = true) :
    encrypt k nonce p = .str p ∧ decrypt k (.str p) = .ok (.str p) := by
  constructor
  · simp [encrypt, is_empty_or_whitespace, hp]
  · simp [decrypt, is_empty_or_whitespace, hp]

/-- Witness for C7 at `p = " "` (a single space). -/
theorem C7_witness :
    encrypt (List.replicate 32 0) [1, 2] " " = .str " " ∧
      decrypt (List.replicate 32 0) (.str " ") = .ok (.str " ") :=
  C7_passthrough_fixed_point (List.replicate 32 0) [1, 2] " "
    (by decide) (by decide)

/-- C6: decrypting a non-empty ciphertext produced under `k1` with a
different key `k2`, or decrypting corrupted non-AEAD bytes, fails with an
authentication error that the function propagates (it returns the error,
never a plaintext). -/
theorem C6_decrypt_wrong_key_fails (k1 k2 nonce : List Nat) (p : String)
    (b : List Nat) (hp : pyStripIsEmpty p = false) (hk : k2 ≠ k1)
    (hb : b.all isWhitespaceByte = false) :
    decrypt k2 (encrypt k1 nonce p) = .error .authenticationError ∧
      decrypt k2 (.raw b) = .error .authenticationError := by
  constructor
  · simp [encrypt, decrypt, is_empty_or_whitespace, hp, hk]
    exact fun h => absurd h.symm hk
  · simp [decrypt, is_empty_or_whitespace, hb]

/-- Witness for C6: wrong key on a real ciphertext and corrupted bytes. -/
theorem C6_witness :
    decrypt (List.replicate 32 1) (encrypt (List.replicate 32 0) [1, 2] "pass123")
        = .error .authenticationError ∧
      decrypt (List.replicate 32 1) (.raw [99]) = .error .authenticationError :=
  C6_decrypt_wrong_key_fails (List.replicate 32 0) (List.replicate 32 1) [1, 2]
    "pass123" [99] (by decide) (by decide) (by decide)

/-- C9: two `encrypt(k, p)` calls that draw distinct fresh nonces produce
different byte outputs (the 12-byte nonce is the prefix of the output),
yet both outputs decrypt under `k` to the same plaintext `p`. -/
theorem C9_nonce_freshness (k n1 n2 : List Nat) (p : String)
    (hk : k.length = 32) (hp : pyStripIsEmpty p = false) (hn : n1 ≠ n2) :
    encrypt k n1 p ≠ encrypt k n2 p ∧
      decrypt k (encrypt k n1 p) = .ok (.str p) ∧
      decrypt k (encrypt k n2 p) = .ok (.str p) := by
  refine ⟨?_, decrypt_encrypt_eq k n1 p hp, decrypt_encrypt_eq k n2 p hp⟩
  simp [encrypt, is_empty_or_whitespace, hp]
  exact fun h => absurd h hn

/-- Witness for C9 at nonces `[1]` and `[2]`. -/
theorem C9_witness :
    encrypt (List.replicate 32 0) [1] "pass123" ≠ encrypt (List.replicate 32 0) [2] "pass123" ∧
      decrypt (List.replicate 32 0) (encrypt (List.replicate 32 0) [1] "pass123") = .ok (.str "pass123") ∧
      decrypt (List.replicate 32 0) (encrypt (List.replicate 32 0) [2] "pass123") = .ok (.str "pass123") :=
  C9_nonce_freshness (List.replicate 32 0) [1] [2] "pass123"
    (by decide) (by decide) (by decide)

/-! ## KeyStore: the `keys/` directory (`utils/cryptography.py`) -/

/-- Constant `KEYS_DIRECTORY = os.path.join(os.getcwd(), "keys")`, with the current
working directory abstracted away. -/
def KEYS_DIRECTORY : String := "keys"

/-- Constant `KEY_FILE_EXTENSION = ".bin"`. -/
def KEY_FILE_EXTENSION : String := ".bin"

/-- The path produced by `os.path.join(KEYS_DIRECTORY, file_name + KEY_FILE_EXTENSION)`
for a `str` file name. -/
def keyFilePath (file_name : String) : String :=
  KEYS_DIRECTORY ++ "/" ++ file_name ++ KEY_FILE_EXTENSION

/-- Function `build_key_file_path(file_name)` from `utils/cryptography.py`.  The
master row's `key_file` column is SQL `NULL`, i.e. Python `None`, and
`None + ".bin"` raises `TypeError`, so the input is an `Option String`. -/
def build_key_file_path (file_name : Option String) : Except PyErr String :=
  match file_name with
  | some name => .ok (keyFilePath name)
  | none => .error .typeError

/-- The key-file directory: a map from full file paths to file contents. -/
structure KeyStore where
  files : List (String × List Nat)
deriving DecidableEq, Repr

/-- Python `os.path.exists` on the keystore. -/
def KeyStore.existsFile (ks : KeyStore) (path : String) : Bool :=
  ks.files.any (fun f => f.1 == path)

/-- Write (create or overwrite) a file. -/
def KeyStore.writeFile (ks : KeyStore) (path : String) (content : List Nat) : KeyStore :=
  ⟨(path, content) :: ks.files.filter (fun f => !(f.1 == path))⟩

/-- Read a file if it exists. -/
def KeyStore.readFile (ks : KeyStore) (path : String) : Option (List Nat) :=
  (ks.files.find? (fun f => f.1 == path)).map (fun f => f.2)

/-- Python `os.remove` on the keystore. -/
def KeyStore.removeFile (ks : KeyStore) (path : String) : KeyStore :=
  ⟨ks.files.filter (fun f => !(f.1 == path))⟩

/-- Function `save_key_to_file(file_name, key)` from `utils/cryptography.py`:
opens `build_key_file_path(file_name)` in mode `wb` (overwriting) and
writes the key bytes. -/
def save_key_to_file (ks : KeyStore) (file_name : String) (key : List Nat) : KeyStore :=
  ks.writeFile (keyFilePath file_name) key

/-- Function `read_key_from_file(file_name)` from `utils/cryptography.py`: opens
the built path in mode `rb`; a missing file raises `FileNotFoundError`. -/
def read_key_from_file (ks : KeyStore) (file_name : Option String) : Except PyErr (List Nat) :=
  match build_key_file_path file_name with
  | .error e => .error e
  | .ok path =>
    match ks.readFile path with
    | some key => .ok key
    | Option.none => .error (.fileNotFoundError path)

/-- Function `delete_key_file(file_name)` from `utils/cryptography.py`.  The path
is built BEFORE the `try` block, so a `None` file name raises `TypeError`
to the caller; inside the `try`, an I/O failure of `os.remove` (modelled
by the `ioFail` oracle) is caught, printed, and `False` is returned. -/
def delete_key_file (ioFail : Bool) (ks : KeyStore) (file_name : Option String) :
    Except PyErr (KeyStore × Bool) :=
  match build_key_file_path file_name with
  | .error e => .error e
  | .ok path =>
    if ks.existsFile path then
      if ioFail then .ok (ks, false)
      else .ok (ks.removeFile path, true)
    else .ok (ks, false)

/-! ## CredentialRepository: `database/database.py` -/

/-- One row of the `accounts` table (class `Account`).  `key_file` is the
truncated key hash naming the key file, `NULL` for the master row. -/
structure Row where
  id : Nat
  key_file : Option String
  website : Value
  notes : Value
  email : Value
  username : Value
  password : Value
deriving DecidableEq, Repr

/-- The relational store: rows in insertion order plus the autoincrement
counter for the `id` primary key. -/
structure DB where
  rows : List Row
  nextId : Nat
deriving DecidableEq, Repr

/-- Method `load_accounts()`: every row, in insertion order. -/
def load_accounts (db : DB) : List Row :=
  db.rows

/-- Method `fetch_master_password()`: the `password` column of the first row with
`username == 'master'`, or `None`. -/
def fetch_master_password (db : DB) : Option Value :=
  match db.rows.find? (fun r => r.username == .str "master") with
  | some account => some account.password
  | Option.none => Option.none

/-- Method `set_master_password(hashed_password)`: inserts
`Account(username='master', password=str(hashed_password))`; all other
value columns default to `NULL` and `key_file` to `NULL`. -/
def set_master_password (db : DB) (hashed_password : String) : DB :=
  { rows := db.rows ++
      [{ id := db.nextId, key_file := Option.none, website := .none,
         notes := .none, email := .none, username := .str "master",
         password := .str hashed_password }],
    nextId := db.nextId + 1 }

/-- Method `save_account(website, notes, email, username, password)`: generates a
fresh 32-byte key (passed explicitly, with the five fresh field nonces),
derives `hashed_key = hash_str(key)[:15]`, encrypts each field under the
key, inserts and commits the one new row, then writes the key file. -/
def save_account (sha : List Nat → String) (key n1 n2 n3 n4 n5 : List Nat)
    (db : DB) (ks : KeyStore)
    (website notes email username password : String) : DB × KeyStore :=
  let hashed_key := (hash_str sha key).take 15
  let account : Row :=
    { id := db.nextId, key_file := some hashed_key,
      website := encrypt key n1 website,
      notes := encrypt key n2 notes,
      email := encrypt key n3 email,
      username := encrypt key n4 username,
      password := encrypt key n5 password }
  let db' : DB := { rows := db.rows ++ [account], nextId := db.nextId + 1 }
  (db', save_key_to_file ks hashed_key key)

/-- The column assignment chain of `update_account`: sets the matching
column of the row, or raises `ValueError(f"Invalid column name: ...")`. -/
def applyColumn (row : Row) (column_updated : String) (v : Value) : Except PyErr Row :=
  if column_updated = "Website" then .ok { row with website := v }
  else if column_updated = "Notes" then .ok { row with notes := v }
  else if column_updated = "Email" then .ok { row with email := v }
  else if column_updated = "Username" then .ok { row with username := v }
  else if column_updated = "Password" then .ok { row with password := v }
  else .error (.valueErrorInvalidColumn column_updated)

/-- Replace the first row whose `id` matches `uid` (the ORM mutates the
object returned by `filter_by(id=uid).first()`). -/
def replaceFirst (rows : List Row) (uid : Nat) (row' : Row) : List Row :=
  match rows with
  | [] => []
  | r :: rs => if r.id == uid then row' :: rs else r :: replaceFirst rs uid row'

/-- Remove the first row whose `id` matches `uid` (`session.delete` on the
object returned by `first()`). -/
def removeFirstRow (rows : List Row) (uid : Nat) : List Row :=
  match rows with
  | [] => []
  | r :: rs => if r.id == uid then rs else r :: removeFirstRow rs uid

/-- The value stored by `update_account`: if `new_value` is
non-empty/non-whitespace, the row's key is read from its key file and
`new_value` is encrypted under it with a fresh nonce (a read failure
propagates); otherwise `new_value` is stored as-is. -/
def updateValue (ks : KeyStore) (row : Row) (nonce : List Nat)
    (new_value : String) : Except PyErr Value :=
  if pyStripIsEmpty new_value = false then
    match read_key_from_file ks row.key_file with
    | .error e => .error e
    | .ok key => .ok (encrypt key nonce new_value)
  else .ok (Value.str new_value)

/-- Method `update_account(uid, column_updated, new_value)`: raises `ValueError`
if no row has id `uid`; computes the stored value (`updateValue`); then
assigns the matching column (raising `ValueError` for an unknown column
name) and commits.  An uncommitted session is rolled back on exit, so an
error leaves the database unchanged. -/
def update_account (db : DB) (ks : KeyStore) (nonce : List Nat)
    (uid : Nat) (column_updated new_value : String) : Except PyErr DB :=
  match db.rows.find? (fun r => r.id == uid) with
  | Option.none => .error (.valueErrorNotFound uid)
  | some row =>
    match updateValue ks row nonce new_value with
    | .error e => .error e
    | .ok v =>
      match applyColumn row column_updated v with
      | .error e => .error e
      | .ok row' => .ok { db with rows := replaceFirst db.rows uid row' }

/-- Method `delete_account(uid)`: silently does nothing when no row has id `uid`;
otherwise marks the row deleted, calls `delete_key_file` on its
`key_file` column (an exception there propagates before `commit`, rolling
the deletion back), and commits. -/
def delete_account (ioFail : Bool) (db : DB) (ks : KeyStore) (uid : Nat) :
    Except PyErr (DB × KeyStore) :=
  match db.rows.find? (fun r => r.id == uid) with
  | Option.none => .ok (db, ks)
  | some account_to_delete =>
    match delete_key_file ioFail ks account_to_delete.key_file with
    | .error e => .error e
    | .ok (ks', _) => .ok ({ db with rows := removeFirstRow db.rows uid }, ks')

/-- Observable database state after a call to `update_account`: the
session context rolls an uncommitted transaction back, so on error the
database is unchanged. -/
def runUpdate (db : DB) (ks : KeyStore) (nonce : List Nat)
    (uid : Nat) (column_updated new_value : String) : DB :=
  match update_account db ks nonce uid column_updated new_value with
  | .ok db' => db'
  | .error _ => db

/-- Observable state after a call to `delete_account`, with rollback on
error. -/
def runDelete (ioFail : Bool) (db : DB) (ks : KeyStore) (uid : Nat) : DB × KeyStore :=
  match delete_account ioFail db ks uid with
  | .ok s => s
  | .error _ => (db, ks)

/-! ## MasterAuth: `gui/login_window.py` -/

/-- Outcome of `LoginWindow.login`: the first-time "Master password set
successfully" path, a successful comparison, or the "Incorrect master
password" warning. -/
inductive LoginResult where
  | firstTimeSuccess
  | success
  | failure
deriving DecidableEq, Repr

/-- Method `LoginWindow.login` (MasterAuth): when no master row exists, stores
`hash_str(password.encode())` as the sentinel row and reports first-time
success; otherwise compares the candidate hash with the stored one. -/
def login (sha : List Nat → String) (db : DB) (password : String) :
    LoginResult × DB :=
  match fetch_master_password db with
  | Option.none =>
    (.firstTimeSuccess, set_master_password db (hash_str sha (utf8Bytes password)))
  | some master_password =>
    if Value.str (hash_str sha (utf8Bytes password)) == master_password then
      (.success, db)
    else
      (.failure, db)

/-! ## Helper lemmas -/

/-- Helper: `find?` skips a prefix in which nothing matches. -/
theorem find?_append_of_none {α : Type} (p : α → Bool) (l1 l2 : List α)
    (h : l1.find? p = Option.none) : (l1 ++ l2).find? p = l2.find? p := by
  induction l1 with
  | nil => rfl
  | cons a l ih =>
    cases hp : p a with
    | true => simp [List.find?, hp] at h
    | false =>
      simp only [List.find?, hp] at h
      simpa [List.find?, hp] using ih h

/-- Reading back a key file just saved under the same name returns the
saved key bytes. -/
theorem read_saved_key (ks : KeyStore) (name : String) (key : List Nat) :
    read_key_from_file (save_key_to_file ks name key) (some name) = .ok key := by
  simp [read_key_from_file, build_key_file_path, save_key_to_file,
    KeyStore.writeFile, KeyStore.readFile, List.find?]

/-- Mapping a replacement over rows none of which has id `uid` is the
identity. -/
theorem map_update_eq_self (rows : List Row) (uid : Nat) (row' : Row)
    (h : ∀ r ∈ rows, r.id ≠ uid) :
    rows.map (fun r => if r.id == uid then row' else r) = rows := by
  induction rows with
  | nil => rfl
  | cons r rs ih =>
    have hr : ¬ ((r.id == uid) = true) := by
      simp only [beq_iff_eq]
      exact h r (by simp)
    rw [List.map_cons, if_neg hr, ih (fun x hx => h x (by simp [hx]))]

/-- With unique row ids, replacing the first id-match is the same as
replacing every id-match. -/
theorem replaceFirst_eq_map (rows : List Row) (uid : Nat) (row' : Row)
    (hnodup : (rows.map (fun r => r.id)).Nodup) :
    replaceFirst rows uid row' = rows.map (fun r => if r.id == uid then row' else r) := by
  induction rows with
  | nil => rfl
  | cons r rs ih =>
    rw [List.map_cons, List.nodup_cons] at hnodup
    by_cases hid : (r.id == uid) = true
    · have hr : r.id = uid := by simpa using hid
      have hall : ∀ x ∈ rs, x.id ≠ uid := by
        intro x hx hxe
        apply hnodup.1
        rw [hr, ← hxe]
        exact List.mem_map_of_mem _ hx
      simp only [replaceFirst, List.map_cons]
      rw [if_pos hid, if_pos hid, map_update_eq_self rs uid row' hall]
    · simp only [replaceFirst, List.map_cons]
      rw [if_neg hid, if_neg hid, ih hnodup.2]

/-- With unique row ids, removing the first id-match is the same as
filtering out every id-match. -/
theorem removeFirstRow_eq_filter (rows : List Row) (uid : Nat)
    (hnodup : (rows.map (fun r => r.id)).Nodup) :
    removeFirstRow rows uid = rows.filter (fun r => !(r.id == uid)) := by
  induction rows with
  | nil => rfl
  | cons r rs ih =>
    rw [List.map_cons, List.nodup_cons] at hnodup
    by_cases hid : (r.id == uid) = true
    · have hr : r.id = uid := by simpa using hid
      have hall : ∀ x ∈ rs, x.id ≠ uid := by
        intro x hx hxe
        apply hnodup.1
        rw [hr, ← hxe]
        exact List.mem_map_of_mem _ hx
      have hfil : rs.filter (fun r => !(r.id == uid)) = rs := by
        rw [List.filter_eq_self]
        intro x hx
        simp only [Bool.not_eq_true']
        exact beq_eq_false_iff_ne.mpr (hall x hx)
      simp only [removeFirstRow, List.filter_cons]
      rw [if_pos hid, if_neg (by simp [hid]), hfil]
    · have hidf : (r.id == uid) = false := by simpa using hid
      simp only [removeFirstRow, List.filter_cons]
      rw [if_neg hid, if_pos (by rw [hidf]; rfl), ih hnodup.2]

/-- Predicate stating that `applyColumn` changes only the assigned column. -/
def agreesExcept (col : String) (r r' : Row) : Prop :=
  r'.id = r.id ∧ r'.key_file = r.key_file ∧
  (col ≠ "Website" → r'.website = r.website) ∧
  (col ≠ "Notes" → r'.notes = r.notes) ∧
  (col ≠ "Email" → r'.email = r.email) ∧
  (col ≠ "Username" → r'.username = r.username) ∧
  (col ≠ "Password" → r'.password = r.password)

theorem applyColumn_agrees (row : Row) (col : String) (v : Value) (row' : Row)
    (h : applyColumn row col v = .ok row') : agreesExcept col row row' := by
  unfold applyColumn at h
  split_ifs at h with h1 h2 h3 h4 h5 <;>
    (simp only [Except.ok.injEq] at h; subst h; simp_all [agreesExcept])

/-- C1: `save_account` derives `key_id = hash(key)[:15]` from the fresh
32-byte key, encrypts each of the five fields independently under that
key (with its own nonce), appends exactly one new row carrying that
`key_id`, persists the key via the keystore so that reading the key file
named by the row's `key_id` returns the generated key, and decrypting
each stored (non-empty) field with that key returns the original input. -/
theorem C1_save_account_spec (sha : List Nat → String)
    (key n1 n2 n3 n4 n5 : List Nat) (db : DB) (ks : KeyStore)
    (website notes email username password : String)
    (hkey : key.length = 32) :
    (save_account sha key n1 n2 n3 n4 n5 db ks website notes email username password).1
      = { rows := db.rows ++
            [{ id := db.nextId,
               key_file := some ((hash_str sha key).take 15),
               website := encrypt key n1 website,
               notes := encrypt key n2 notes,
               email := encrypt key n3 email,
               username := encrypt key n4 username,
               password := encrypt key n5 password }],
          nextId := db.nextId + 1 } ∧
    read_key_from_file
        (save_account sha key n1 n2 n3 n4 n5 db ks website notes email username password).2
        (some ((hash_str sha key).take 15)) = .ok key ∧
    (pyStripIsEmpty website = false →
      decrypt key (encrypt key n1 website) = .ok (.str website)) ∧
    (pyStripIsEmpty notes = false →
      decrypt key (encrypt key n2 notes) = .ok (.str notes)) ∧
    (pyStripIsEmpty email = false →
      decrypt key (encrypt key n3 email) = .ok (.str email)) ∧
    (pyStripIsEmpty username = false →
      decrypt key (encrypt key n4 username) = .ok (.str username)) ∧
    (pyStripIsEmpty password = false →
      decrypt key (encrypt key n5 password) = .ok (.str password)) := by
  refine ⟨rfl, ?_, fun h => decrypt_encrypt_eq key n1 website h,
    fun h => decrypt_encrypt_eq key n2 notes h,
    fun h => decrypt_encrypt_eq key n3 email h,
    fun h => decrypt_encrypt_eq key n4 username h,
    fun h => decrypt_encrypt_eq key n5 password h⟩
  exact read_saved_key ks ((hash_str sha key).take 15) key

/-- Witness for C1: Scenario A on an empty database. -/
theorem C1_witness :
    (save_account (fun _ => "0123456789abcdefff") (List.replicate 32 0)
        [1] [2] [3] [4] [5] ⟨[], 1⟩ ⟨[]⟩ "site.com" "n" "e@x.com" "user" "pass123").1
      = { rows := [] ++
            [{ id := 1,
               key_file := some ((hash_str (fun _ => "0123456789abcdefff") (List.replicate 32 0)).take 15),
               website := encrypt (List.replicate 32 0) [1] "site.com",
               notes := encrypt (List.replicate 32 0) [2] "n",
               email := encrypt (List.replicate 32 0) [3] "e@x.com",
               username := encrypt (List.replicate 32 0) [4] "user",
               password := encrypt (List.replicate 32 0) [5] "pass123" }],
          nextId := 2 } ∧
    read_key_from_file
        (save_account (fun _ => "0123456789abcdefff") (List.replicate 32 0)
          [1] [2] [3] [4] [5] ⟨[], 1⟩ ⟨[]⟩ "site.com" "n" "e@x.com" "user" "pass123").2
        (some ((hash_str (fun _ => "0123456789abcdefff") (List.replicate 32 0)).take 15))
      = .ok (List.replicate 32 0) ∧
    (pyStripIsEmpty "site.com" = false →
      decrypt (List.replicate 32 0) (encrypt (List.replicate 32 0) [1] "site.com")
        = .ok (.str "site.com")) ∧
    (pyStripIsEmpty "n" = false →
      decrypt (List.replicate 32 0) (encrypt (List.replicate 32 0) [2] "n")
        = .ok (.str "n")) ∧
    (pyStripIsEmpty "e@x.com" = false →
      decrypt (List.replicate 32 0) (encrypt (List.replicate 32 0) [3] "e@x.com")
        = .ok (.str "e@x.com")) ∧
    (pyStripIsEmpty "user" = false →
      decrypt (List.replicate 32 0) (encrypt (List.replicate 32 0) [4] "user")
        = .ok (.str "user")) ∧
    (pyStripIsEmpty "pass123" = false →
      decrypt (List.replicate 32 0) (encrypt (List.replicate 32 0) [5] "pass123")
        = .ok (.str "pass123")) :=
  C1_save_account_spec (fun _ => "0123456789abcdefff") (List.replicate 32 0)
    [1] [2] [3] [4] [5] ⟨[], 1⟩ ⟨[]⟩ "site.com" "n" "e@x.com" "user" "pass123"
    (by decide)

/-- C8: `authenticate` (MasterAuth) is a two-state machine.  When no
master sentinel row exists, it stores the candidate's hash as the
sentinel row (`username == "master"`) and reports first-time success;
once the sentinel exists, it succeeds iff the candidate's hash equals the
stored one and leaves the database (hence the stored hash) unchanged. -/
theorem C8_authenticate_state_machine (sha : List Nat → String) (db : DB)
    (candidate : String) :
    (fetch_master_password db = Option.none →
      (login sha db candidate).1 = .firstTimeSuccess ∧
      (login sha db candidate).2
        = set_master_password db (hash_str sha (utf8Bytes candidate)) ∧
      fetch_master_password (login sha db candidate).2
        = some (.str (hash_str sha (utf8Bytes candidate)))) ∧
    (∀ stored, fetch_master_password db = some stored →
      (login sha db candidate).2 = db ∧
      ((login sha db candidate).1 = .success ↔
        Value.str (hash_str sha (utf8Bytes candidate)) = stored) ∧
      ((login sha db candidate).1 = .failure ↔
        ¬ Value.str (hash_str sha (utf8Bytes candidate)) = stored)) := by
  constructor
  · intro hnone
    have h1 : login sha db candidate
        = (.firstTimeSuccess, set_master_password db (hash_str sha (utf8Bytes candidate))) := by
      unfold login
      rw [hnone]
    have hfind : db.rows.find? (fun r => r.username == Value.str "master") = Option.none := by
      cases hf : db.rows.find? (fun r => r.username == Value.str "master") with
      | none => rfl
      | some a =>
        unfold fetch_master_password at hnone
        rw [hf] at hnone
        simp at hnone
    have h3 : fetch_master_password (set_master_password db (hash_str sha (utf8Bytes candidate)))
        = some (Value.str (hash_str sha (utf8Bytes candidate))) := by
      unfold fetch_master_password set_master_password
      rw [find?_append_of_none _ _ _ hfind]
      simp [List.find?]
    exact ⟨by rw [h1], by rw [h1], by rw [h1]; exact h3⟩
  · intro stored hsome
    have h1 : login sha db candidate
        = if Value.str (hash_str sha (utf8Bytes candidate)) == stored
          then (.success, db) else (.failure, db) := by
      unfold login
      rw [hsome]
    by_cases heq : (Value.str (hash_str sha (utf8Bytes candidate)) == stored) = true
    · have hv : Value.str (hash_str sha (utf8Bytes candidate)) = stored := by
        simpa using heq
      rw [h1, if_pos heq]
      exact ⟨rfl, by simp [hv], by simp [hv]⟩
    · have hv : ¬ Value.str (hash_str sha (utf8Bytes candidate)) = stored := by
        simpa using heq
      rw [h1, if_neg heq]
      exact ⟨rfl, by simp [hv], by simp [hv]⟩

/-- Witness for C8: first-time authentication on an empty database stores
the candidate's hash and reports first-time success. -/
theorem C8_witness :
    (login (fun _ => "h") ⟨[], 1⟩ "secret").1 = .firstTimeSuccess ∧
    (login (fun _ => "h") ⟨[], 1⟩ "secret").2
      = set_master_password ⟨[], 1⟩ (hash_str (fun _ => "h") (utf8Bytes "secret")) ∧
    fetch_master_password (login (fun _ => "h") ⟨[], 1⟩ "secret").2
      = some (.str (hash_str (fun _ => "h") (utf8Bytes "secret"))) :=
  (C8_authenticate_state_machine (fun _ => "h") ⟨[], 1⟩ "secret").1 rfl

/-- Inversion: `update_account` when no row matches. -/
theorem update_account_none (db : DB) (ks : KeyStore) (nonce : List Nat)
    (uid : Nat) (col nv : String)
    (h : db.rows.find? (fun r => r.id == uid) = Option.none) :
    update_account db ks nonce uid col nv = .error (.valueErrorNotFound uid) := by
  unfold update_account
  rw [h]

/-- Inversion: `update_account` when a row matches. -/
theorem update_account_some (db : DB) (ks : KeyStore) (nonce : List Nat)
    (uid : Nat) (col nv : String) (row : Row)
    (h : db.rows.find? (fun r => r.id == uid) = some row) :
    update_account db ks nonce uid col nv
      = (match updateValue ks row nonce nv with
         | .error e => .error e
         | .ok v =>
           match applyColumn row col v with
           | .error e => .error e
           | .ok row' => .ok { db with rows := replaceFirst db.rows uid row' }) := by
  unfold update_account
  rw [h]

/-- Inversion: `delete_account` when no row matches. -/
theorem delete_account_none (ioFail : Bool) (db : DB) (ks : KeyStore) (uid : Nat)
    (h : db.rows.find? (fun r => r.id == uid) = Option.none) :
    delete_account ioFail db ks uid = .ok (db, ks) := by
  unfold delete_account
  rw [h]

/-- Inversion: `delete_account` when a row matches. -/
theorem delete_account_some (ioFail : Bool) (db : DB) (ks : KeyStore) (uid : Nat)
    (row : Row) (h : db.rows.find? (fun r => r.id == uid) = some row) :
    delete_account ioFail db ks uid
      = (match delete_key_file ioFail ks row.key_file with
         | .error e => .error e
         | .ok (ks', _) => .ok ({ db with rows := removeFirstRow db.rows uid }, ks')) := by
  unfold delete_account
  rw [h]

/-- After a deletion, rows in the result never carry the deleted id. -/
theorem mem_removeFirstRow_ne (rows : List Row) (uid : Nat)
    (hnodup : (rows.map (fun r => r.id)).Nodup) :
    ∀ r ∈ removeFirstRow rows uid, r.id ≠ uid := by
  intro r hr
  rw [removeFirstRow_eq_filter rows uid hnodup] at hr
  have h := List.of_mem_filter hr
  simp only [Bool.not_eq_true'] at h
  exact beq_eq_false_iff_ne.mp h

/-- Removing a file makes it unreadable. -/
theorem readFile_removeFile (ks : KeyStore) (path : String) :
    (ks.removeFile path).readFile path = Option.none := by
  unfold KeyStore.removeFile KeyStore.readFile
  rw [Option.map_eq_none', List.find?_eq_none]
  intro x hx
  have h := List.of_mem_filter hx
  simp only [Bool.not_eq_true'] at h
  simp [h]

/-- A file that does not exist cannot be read. -/
theorem readFile_of_not_exists (ks : KeyStore) (path : String)
    (h : ks.existsFile path = false) : ks.readFile path = Option.none := by
  unfold KeyStore.existsFile at h
  unfold KeyStore.readFile
  rw [Option.map_eq_none', List.find?_eq_none]
  intro x hx
  have hx2 := (List.any_eq_false.mp h) x hx
  simp at hx2
  simp [hx2]

/-- Reading a key file that is absent fails with `FileNotFoundError`. -/
theorem read_key_from_file_absent (ks : KeyStore) (kid : String)
    (h : ks.readFile (keyFilePath kid) = Option.none) :
    read_key_from_file ks (some kid) = .error (.fileNotFoundError (keyFilePath kid)) := by
  unfold read_key_from_file build_key_file_path
  simp only []
  rw [h]

/-- C4: `update_account` fails with an error when no row with id `uid`
exists, and fails with an error when the field name is not one of the
five editable columns; in both failure cases the commit is never reached,
so the rolled-back database is unchanged. -/
theorem C4_update_account_error_cases (db : DB) (ks : KeyStore) (nonce : List Nat)
    (uid : Nat) (col nv : String) :
    (db.rows.find? (fun r => r.id == uid) = Option.none →
      update_account db ks nonce uid col nv = .error (.valueErrorNotFound uid) ∧
      runUpdate db ks nonce uid col nv = db) ∧
    (¬ (col = "Website" ∨ col = "Notes" ∨ col = "Email" ∨
        col = "Username" ∨ col = "Password") →
      (∃ e, update_account db ks nonce uid col nv = .error e) ∧
      runUpdate db ks nonce uid col nv = db) := by
  constructor
  · intro hfind
    have h1 := update_account_none db ks nonce uid col nv hfind
    exact ⟨h1, by unfold runUpdate; rw [h1]⟩
  · intro hcol
    push_neg at hcol
    have hex : ∃ e, update_account db ks nonce uid col nv = .error e := by
      cases hfind : db.rows.find? (fun r => r.id == uid) with
      | none => exact ⟨.valueErrorNotFound uid, update_account_none db ks nonce uid col nv hfind⟩
      | some row =>
        rw [update_account_some db ks nonce uid col nv row hfind]
        cases hv : updateValue ks row nonce nv with
        | error e => exact ⟨e, rfl⟩
        | ok v =>
          have happ : applyColumn row col v = .error (.valueErrorInvalidColumn col) := by
            unfold applyColumn
            rw [if_neg hcol.1, if_neg hcol.2.1, if_neg hcol.2.2.1,
              if_neg hcol.2.2.2.1, if_neg hcol.2.2.2.2]
          exact ⟨.valueErrorInvalidColumn col, by simp [happ]⟩
    obtain ⟨e, he⟩ := hex
    exact ⟨⟨e, he⟩, by unfold runUpdate; rw [he]⟩

/-- Witness for C4: Scenario D (`uid = 999` on an empty table) and an
invalid column name. -/
theorem C4_witness :
    (update_account ⟨[], 1⟩ ⟨[]⟩ [1] 999 "Website" "x"
        = .error (.valueErrorNotFound 999) ∧
      runUpdate ⟨[], 1⟩ ⟨[]⟩ [1] 999 "Website" "x" = ⟨[], 1⟩) ∧
    ((∃ e, update_account ⟨[], 1⟩ ⟨[]⟩ [1] 1 "BadColumn" "x" = .error e) ∧
      runUpdate ⟨[], 1⟩ ⟨[]⟩ [1] 1 "BadColumn" "x" = ⟨[], 1⟩) :=
  ⟨(C4_update_account_error_cases ⟨[], 1⟩ ⟨[]⟩ [1] 999 "Website" "x").1 rfl,
   (C4_update_account_error_cases ⟨[], 1⟩ ⟨[]⟩ [1] 1 "BadColumn" "x").2 (by decide)⟩

/-- C10: deleting the sentinel master row (whose `key_file` column is
`NULL`) raises `TypeError` while building the key-file path, before the
transaction commits, so the rolled-back database and the keystore are
unchanged and the master row survives. -/
theorem C10_delete_master_row (ioFail : Bool) (db : DB) (ks : KeyStore)
    (uid : Nat) (row : Row)
    (hfind : db.rows.find? (fun r => r.id == uid) = some row)
    (hkf : row.key_file = Option.none) :
    delete_account ioFail db ks uid = .error .typeError ∧
      runDelete ioFail db ks uid = (db, ks) := by
  have h1 : delete_account ioFail db ks uid = .error .typeError := by
    rw [delete_account_some ioFail db ks uid row hfind, hkf]
    rfl
  exact ⟨h1, by unfold runDelete; rw [h1]⟩

/-- Witness for C10: a database holding only the master sentinel row. -/
theorem C10_witness :
    delete_account false
        ⟨[⟨1, Option.none, .none, .none, .none, .str "master", .str "hash"⟩], 2⟩ ⟨[]⟩ 1
      = .error .typeError ∧
    runDelete false
        ⟨[⟨1, Option.none, .none, .none, .none, .str "master", .str "hash"⟩], 2⟩ ⟨[]⟩ 1
      = (⟨[⟨1, Option.none, .none, .none, .none, .str "master", .str "hash"⟩], 2⟩, ⟨[]⟩) :=
  C10_delete_master_row false
    ⟨[⟨1, Option.none, .none, .none, .none, .str "master", .str "hash"⟩], 2⟩ ⟨[]⟩ 1
    ⟨1, Option.none, .none, .none, .none, .str "master", .str "hash"⟩ rfl rfl

/-- C3: `delete_account(uid)` is a silent no-op when no row with id `uid`
exists.  When the row exists (with an associated key file name), it
removes the row — key-file removal is best-effort, so an I/O failure
(`ioFail = true`) still lets the row deletion commit — and afterwards no
loaded row carries that id; when the removal I/O succeeds, loading the
key by its `key_id` fails because the file is absent. -/
theorem C3_delete_account_spec (ioFail : Bool) (db : DB) (ks : KeyStore) (uid : Nat)
    (hnodup : (db.rows.map (fun r => r.id)).Nodup) :
    (db.rows.find? (fun r => r.id == uid) = Option.none →
      delete_account ioFail db ks uid = .ok (db, ks)) ∧
    (∀ row kid, db.rows.find? (fun r => r.id == uid) = some row →
      row.key_file = some kid →
      ∃ ks', delete_account ioFail db ks uid
          = .ok ({ db with rows := removeFirstRow db.rows uid }, ks') ∧
        (∀ r ∈ removeFirstRow db.rows uid, r.id ≠ uid) ∧
        (ioFail = false →
          read_key_from_file ks' (some kid)
            = .error (.fileNotFoundError (keyFilePath kid)))) := by
  constructor
  · intro hfind
    exact delete_account_none ioFail db ks uid hfind
  · intro row kid hfind hkf
    have hmem := mem_removeFirstRow_ne db.rows uid hnodup
    have hd := delete_account_some ioFail db ks uid row hfind
    rw [hkf] at hd
    by_cases hex : ks.existsFile (keyFilePath kid) = true
    · cases ioFail with
      | false =>
        have hdel : delete_key_file false ks (some kid)
            = .ok (ks.removeFile (keyFilePath kid), true) := by
          unfold delete_key_file build_key_file_path
          simp only []
          rw [if_pos hex]
          rfl
        rw [hdel] at hd
        refine ⟨ks.removeFile (keyFilePath kid), hd, hmem, fun _ => ?_⟩
        exact read_key_from_file_absent _ kid (readFile_removeFile ks (keyFilePath kid))
      | true =>
        have hdel : delete_key_file true ks (some kid) = .ok (ks, false) := by
          unfold delete_key_file build_key_file_path
          simp only []
          rw [if_pos hex]
          rfl
        rw [hdel] at hd
        exact ⟨ks, hd, hmem, fun h => by simp at h⟩
    · have hexf : ks.existsFile (keyFilePath kid) = false := by
        simpa using hex
      have hdel : delete_key_file ioFail ks (some kid) = .ok (ks, false) := by
        unfold delete_key_file build_key_file_path
        simp only []
        rw [if_neg hex]
      rw [hdel] at hd
      refine ⟨ks, hd, hmem, fun _ => ?_⟩
      exact read_key_from_file_absent _ kid (readFile_of_not_exists ks (keyFilePath kid) hexf)

/-- Witness for C3: a nonexistent id is a silent no-op, and deleting the
one existing row removes it and its key file. -/
theorem C3_witness :
    (delete_account false
        (⟨[⟨1, some "k", .str "w", .str "n", .str "e", .str "u", .str "p"⟩], 2⟩ : DB)
        ⟨[("keys/k.bin", [5])]⟩ 7
      = .ok (⟨[⟨1, some "k", .str "w", .str "n", .str "e", .str "u", .str "p"⟩], 2⟩,
             ⟨[("keys/k.bin", [5])]⟩)) ∧
    (∃ ks', delete_account false
        (⟨[⟨1, some "k", .str "w", .str "n", .str "e", .str "u", .str "p"⟩], 2⟩ : DB)
        ⟨[("keys/k.bin", [5])]⟩ 1
        = .ok ({ (⟨[⟨1, some "k", .str "w", .str "n", .str "e", .str "u", .str "p"⟩], 2⟩ : DB) with
                  rows := removeFirstRow
                    (⟨[⟨1, some "k", .str "w", .str "n", .str "e", .str "u", .str "p"⟩], 2⟩ : DB).rows 1 },
               ks') ∧
      (∀ r ∈ removeFirstRow
          (⟨[⟨1, some "k", .str "w", .str "n", .str "e", .str "u", .str "p"⟩], 2⟩ : DB).rows 1,
        r.id ≠ 1) ∧
      (false = false →
        read_key_from_file ks' (some "k")
          = .error (.fileNotFoundError (keyFilePath "k")))) :=
  ⟨(C3_delete_account_spec false
      ⟨[⟨1, some "k", .str "w", .str "n", .str "e", .str "u", .str "p"⟩], 2⟩
      ⟨[("keys/k.bin", [5])]⟩ 7 (by decide)).1 rfl,
   (C3_delete_account_spec false
      ⟨[⟨1, some "k", .str "w", .str "n", .str "e", .str "u", .str "p"⟩], 2⟩
      ⟨[("keys/k.bin", [5])]⟩ 1 (by decide)).2
     ⟨1, some "k", .str "w", .str "n", .str "e", .str "u", .str "p"⟩ "k" rfl rfl⟩

/-- C5: a successful `update_account(uid, col, nv)` replaces the row with
id `uid` by a row that agrees with it on every column except `col`
(including `id` and `key_file`), maps every other row to itself in place,
and keeps the id counter: no other column of any row is mutated. -/
theorem C5_update_account_frame (db : DB) (ks : KeyStore) (nonce : List Nat)
    (uid : Nat) (col nv : String) (row : Row) (db' : DB)
    (hnodup : (db.rows.map (fun r => r.id)).Nodup)
    (hfind : db.rows.find? (fun r => r.id == uid) = some row)
    (hok : update_account db ks nonce uid col nv = .ok db') :
    db'.nextId = db.nextId ∧
    ∃ row', agreesExcept col row row' ∧
      db'.rows = db.rows.map (fun r => if r.id == uid then row' else r) := by
  rw [update_account_some db ks nonce uid col nv row hfind] at hok
  cases hv : updateValue ks row nonce nv with
  | error e =>
    rw [hv] at hok
    simp at hok
  | ok v =>
    rw [hv] at hok
    simp only [] at hok
    cases happ : applyColumn row col v with
    | error e =>
      rw [happ] at hok
      simp at hok
    | ok row' =>
      rw [happ] at hok
      simp only [Except.ok.injEq] at hok
      refine ⟨?_, row', applyColumn_agrees row col v row' happ, ?_⟩
      · rw [← hok]
      · rw [← hok]
        exact replaceFirst_eq_map db.rows uid row' hnodup

/-- Witness for C5: updating the `Website` column of the only row. -/
theorem C5_witness :
    (⟨[⟨1, some "k", .blob [5] [7] "new", .str "n", .str "e", .str "u", .str "p"⟩], 2⟩ : DB).nextId
      = (⟨[⟨1, some "k", .str "w", .str "n", .str "e", .str "u", .str "p"⟩], 2⟩ : DB).nextId ∧
    ∃ row', agreesExcept "Website"
        ⟨1, some "k", .str "w", .str "n", .str "e", .str "u", .str "p"⟩ row' ∧
      (⟨[⟨1, some "k", .blob [5] [7] "new", .str "n", .str "e", .str "u", .str "p"⟩], 2⟩ : DB).rows
        = (⟨[⟨1, some "k", .str "w", .str "n", .str "e", .str "u", .str "p"⟩], 2⟩ : DB).rows.map
            (fun r => if r.id == 1 then row' else r) :=
  C5_update_account_frame
    ⟨[⟨1, some "k", .str "w", .str "n", .str "e", .str "u", .str "p"⟩], 2⟩
    ⟨[("keys/k.bin", [5])]⟩ [7] 1 "Website" "new"
    ⟨1, some "k", .str "w", .str "n", .str "e", .str "u", .str "p"⟩
    ⟨[⟨1, some "k", .blob [5] [7] "new", .str "n", .str "e", .str "u", .str "p"⟩], 2⟩
    (by decide) rfl rfl
